/-
  Verification of the ride-hailing dispatch core (Go sources under internal/
  and the service/repository/middleware packages) against its natural-language
  specification.

  Shallow embedding conventions:
  * Go float64 arithmetic on fares, distances, ratings and surge factors is
    modelled over the rationals; the spec and all claims state exact decimal
    arithmetic, which float64 reproduces on every value appearing here.
  * Go time.Time instants are modelled as natural numbers (seconds); pointers
    are Option; errors are an explicit Err type mirroring internal/errors.
  * Database tables are lists of rows; SQL UPDATE ... WHERE is List.map over
    the rows, SELECT ... WHERE id = $1 is List.find?.  A transaction that
    rolls back returns the original table state.
  * The Redis driver-location cache (internal/cache, not part of the sources)
    appears only through its results: the nearby-driver list, the per-driver
    meta record and the active-ride pointer are inputs to the functions that
    consume them, exactly as the service code receives them.
-/
import Mathlib

namespace RideHailing

/-! ## Pricing (service/pricing_service.go) -/

/-- FareConfig mirrors the Go struct: per-vehicle-class pricing tuple. -/
structure FareConfig where
  baseFare : ℚ
  perKmRate : ℚ
  perMinRate : ℚ
  minFare : ℚ
  cancellationFee : ℚ
  deriving Repr, DecidableEq

/-- FareBreakdown mirrors models.FareBreakdown. -/
structure FareBreakdown where
  baseFare : ℚ
  distanceFare : ℚ
  timeFare : ℚ
  surgeAmount : ℚ
  total : ℚ
  deriving Repr, DecidableEq

/-- fareConfigs from pricing_service.go: the Go map over the four vehicle
classes, modelled as its lookup function (none = key absent). -/
def fareConfigs (vt : String) : Option FareConfig :=
  if vt = "auto" then some ⟨25, 12, 1.0, 30, 25⟩
  else if vt = "mini" then some ⟨40, 14, 1.2, 50, 40⟩
  else if vt = "sedan" then some ⟨50, 17, 1.5, 80, 50⟩
  else if vt = "suv" then some ⟨80, 22, 2.0, 120, 80⟩
  else none

/-- Go math.Round: round half away from zero, as an integer. -/
def goRound (x : ℚ) : ℤ :=
  if 0 ≤ x then ⌊x + 1/2⌋ else -⌊-x + 1/2⌋

/-- round from pricing_service.go: math.Round(f*100)/100 (two decimals). -/
def round2 (f : ℚ) : ℚ :=
  (goRound (f * 100) : ℚ) / 100

/-- calculateFare from pricing_service.go; an unknown vehicle class falls
back to the sedan configuration, exactly as the Go code does on a failed
map lookup. -/
def calculateFare (vehicleType : String) (distanceKm : ℚ) (durationMins : ℤ)
    (surgeMultiplier : ℚ) : FareBreakdown :=
  let config := match fareConfigs vehicleType with
    | some c => c
    | none => (fareConfigs "sedan").getD ⟨50, 17, 1.5, 80, 50⟩
  let baseFare := config.baseFare
  let distanceFare := distanceKm * config.perKmRate
  let timeFare := (durationMins : ℚ) * config.perMinRate
  let subtotal := baseFare + distanceFare + timeFare
  let surgeAmount := subtotal * (surgeMultiplier - 1)
  let total := subtotal + surgeAmount
  let total' := if total < config.minFare then config.minFare else total
  let surgeAmount' := if total < config.minFare then 0 else surgeAmount
  { baseFare := round2 baseFare
    distanceFare := round2 distanceFare
    timeFare := round2 timeFare
    surgeAmount := round2 surgeAmount'
    total := round2 total' }

/-- CalculateSurge from pricing_service.go: step function on demand/supply. -/
def calculateSurge (demandCount supplyCount : ℕ) : ℚ :=
  if supplyCount = 0 then 2.0
  else
    let r : ℚ := (demandCount : ℚ) / (supplyCount : ℚ)
    if r < 1.0 then 1.0
    else if r < 1.5 then 1.2
    else if r < 2.0 then 1.5
    else if r < 3.0 then 1.8
    else 2.0

/-- EstimateDuration from pricing_service.go: ceil(km / 25 * 60) minutes,
lower-bounded at 5. -/
def estimateDuration (distanceKm : ℚ) : ℤ :=
  let durationMins := ⌈distanceKm / 25 * 60⌉
  if durationMins < 5 then 5 else durationMins

/-! Spec-side restatement of the fare computation (section 4.1 of the spec),
written from the spec's words for the refinement comparison of claim C6. -/

/-- Rate tuple of the spec's canonical table, section 4.1; the spec says an
unknown class defaults to sedan. -/
def specRates (vehicleClass : String) : FareConfig :=
  if vehicleClass = "auto" then ⟨25, 12, 1.0, 30, 25⟩
  else if vehicleClass = "mini" then ⟨40, 14, 1.2, 50, 40⟩
  else if vehicleClass = "suv" then ⟨80, 22, 2.0, 120, 80⟩
  else ⟨50, 17, 1.5, 80, 50⟩

/-- Fare breakdown as the spec states it: subtotal = base + perKm*km +
perMin*min; surgeAmount = subtotal*(surge - 1); total = subtotal +
surgeAmount; if total < minFare then total := minFare and surgeAmount := 0;
all five output fields rounded to two decimals. -/
def specFare (vehicleClass : String) (km : ℚ) (mins : ℤ) (surge : ℚ) :
    FareBreakdown :=
  let c := specRates vehicleClass
  let subtotal := c.baseFare + c.perKmRate * km + c.perMinRate * (mins : ℚ)
  let surgeAmount := subtotal * (surge - 1)
  let total := subtotal + surgeAmount
  let clamped := total < c.minFare
  { baseFare := round2 c.baseFare
    distanceFare := round2 (c.perKmRate * km)
    timeFare := round2 (c.perMinRate * (mins : ℚ))
    surgeAmount := round2 (if clamped then 0 else surgeAmount)
    total := round2 (if clamped then c.minFare else total) }

theorem floor_add_half_intCast (m : ℤ) : ⌊(m : ℚ) + 1/2⌋ = m := by
  rw [Int.floor_eq_iff]
  constructor <;> norm_num

theorem goRound_intCast (n : ℤ) : goRound ((n : ℚ)) = n := by
  unfold goRound
  rcases le_or_lt 0 ((n : ℚ)) with h | h
  · rw [if_pos h, floor_add_half_intCast]
  · rw [if_neg (not_le.mpr h)]
    have hcast : -((n : ℚ)) = (((-n : ℤ)) : ℚ) := by push_cast; ring
    rw [hcast, floor_add_half_intCast]
    ring

theorem round2_intCast (n : ℤ) : round2 ((n : ℚ)) = (n : ℚ) := by
  unfold round2
  have h : (n : ℚ) * 100 = (((n * 100 : ℤ)) : ℚ) := by push_cast; ring
  rw [h, goRound_intCast]
  push_cast
  field_simp

theorem lookup_eq_specRates (vt : String) :
    (match fareConfigs vt with
      | some c => c
      | none => (fareConfigs "sedan").getD ⟨50, 17, 1.5, 80, 50⟩) =
      specRates vt := by
  simp only [fareConfigs, specRates]
  by_cases h1 : vt = "auto"
  · simp [h1]
  · by_cases h2 : vt = "mini"
    · simp [h1, h2]
    · by_cases h3 : vt = "sedan"
      · simp [h1, h2, h3]
      · by_cases h4 : vt = "suv"
        · simp [h1, h2, h3, h4]
        · simp [h1, h2, h3, h4]

/-- Claim C6: for every vehicle class, distance, duration and surge
multiplier, the fare breakdown computed by calculateFare is exactly the
spec's formula (subtotal, surge amount, min-fare clamp zeroing the surge,
all five fields rounded to two decimals, unknown class treated as sedan);
and on the concrete instance sedan, 10 km, 20 min, surge 1.0 the breakdown
is base 50, distance 170, time 30, surge 0, total 250. -/
theorem calculateFare_matches_spec :
    (∀ (vt : String) (km : ℚ) (mins : ℤ) (surge : ℚ),
      calculateFare vt km mins surge = specFare vt km mins surge) ∧
    calculateFare "sedan" 10 20 1.0 =
      { baseFare := 50, distanceFare := 170, timeFare := 30,
        surgeAmount := 0, total := 250 } := by
  constructor
  · intro vt km mins surge
    simp only [calculateFare, specFare, lookup_eq_specRates]
    ring_nf
  · have e : ∀ n : ℕ, round2 ((n : ℚ)) = (n : ℚ) := fun n => by
      exact_mod_cast round2_intCast (n : ℤ)
    simp [calculateFare, fareConfigs, FareBreakdown.mk.injEq]
    norm_num
    refine ⟨?_, ?_, ?_, ?_, ?_⟩
    · exact_mod_cast e 50
    · exact_mod_cast e 170
    · exact_mod_cast e 30
    · exact_mod_cast e 0
    · exact_mod_cast e 250

/-! ## Data model (internal/models) -/

/-- Ride status constants from models/ride.go. -/
inductive RideStatus where
  | pending | matching | driverAssigned | driverArrived
  | inProgress | completed | cancelled
  deriving DecidableEq, Repr

/-- Ride offer status constants from models (ride_offer). -/
inductive OfferStatus where
  | pending | accepted | declined | expired
  deriving DecidableEq, Repr

/-- Driver status constants from models/driver.go. -/
inductive DriverStatus where
  | offline | online | busy
  deriving DecidableEq, Repr

/-- Trip status constants from models (trip). -/
inductive TripStatus where
  | started | paused | completed | cancelled
  deriving DecidableEq, Repr

/-- Error taxonomy from internal/errors; messages kept where the service
distinguishes two errors of the same code. -/
inductive Err where
  | notFound (resource : String)
  | unauthorized (msg : String)
  | badRequest (msg : String)
  | conflict (msg : String)
  | offerExpired
  | rideAlreadyAssigned
  | noDriversAvailable
  | userHasActiveRide
  deriving DecidableEq, Repr

/-- RideOffer row (models.RideOffer); instants are naturals (seconds). -/
structure Offer where
  id : String
  rideId : String
  driverId : String
  status : OfferStatus
  offeredAt : Nat
  respondedAt : Option Nat
  expiresAt : Nat
  deriving DecidableEq, Repr

/-- Ride row (models.Ride); the fields the dispatch-core services read or
write.  created_at and updated_at carry no claim-relevant content and are
omitted. -/
structure Ride where
  id : String
  userId : String
  driverId : Option String
  pickupLat : ℚ
  pickupLng : ℚ
  dropoffLat : ℚ
  dropoffLng : ℚ
  vehicleType : String
  status : RideStatus
  estimatedFare : Option ℚ
  surgeMultiplier : ℚ
  estimatedDistanceKm : Option ℚ
  estimatedDurationMin : Option ℤ
  paymentMethod : String
  idempotencyKey : Option String
  cancelledBy : Option String
  cancellationReason : Option String
  deriving DecidableEq, Repr

/-- Driver row (models.Driver); identity fields the dispatch core never
reads (phone, license, vehicle number) are omitted. -/
structure Driver where
  id : String
  status : DriverStatus
  vehicleType : String
  rating : ℚ
  totalTrips : ℕ
  currentLat : Option ℚ
  currentLng : Option ℚ
  deriving DecidableEq, Repr

/-- Trip row (models.Trip); fare columns omitted (no claim reads them). -/
structure Trip where
  id : String
  rideId : String
  driverId : String
  userId : String
  status : TripStatus
  startTime : Option Nat
  endTime : Option Nat
  pauseDurationSecs : Nat
  deriving DecidableEq, Repr

/-- Per-driver presence-cache meta record (status, vehicle class, rating),
as SetDriverMeta stores it and GetDriverMeta returns it. -/
structure DriverMeta where
  status : DriverStatus
  vehicleType : String
  rating : ℚ
  deriving DecidableEq, Repr

/-- The durable store plus the presence cache: tables are lists of rows.
users holds only the row ids, the single thing the modelled services read
from that table.  activeRides is the cache's driverId to rideId pointer. -/
structure DB where
  users : List String
  rides : List Ride
  drivers : List Driver
  offers : List Offer
  trips : List Trip
  meta : List (String × DriverMeta)
  activeRides : List (String × String)
  deriving DecidableEq, Repr

/-- SELECT ... WHERE id = $1 LIMIT 1 over the offers table. -/
def lookupOffer (oid : String) : List Offer → Option Offer
  | [] => none
  | o :: rest => if o.id = oid then some o else lookupOffer oid rest

/-- SELECT ... WHERE id = $1 LIMIT 1 over the rides table. -/
def lookupRide (rid : String) : List Ride → Option Ride
  | [] => none
  | r :: rest => if r.id = rid then some r else lookupRide rid rest

/-- SELECT ... WHERE id = $1 LIMIT 1 over the drivers table. -/
def lookupDriver (did : String) : List Driver → Option Driver
  | [] => none
  | d :: rest => if d.id = did then some d else lookupDriver did rest

/-- SELECT ... WHERE ride_id = $1 over the trips table (first row). -/
def lookupTripByRide (rid : String) : List Trip → Option Trip
  | [] => none
  | t :: rest => if t.rideId = rid then some t else lookupTripByRide rid rest

/-- Cache GET on a string-keyed record (first binding wins; SET prepends). -/
def lookupAssoc {α : Type} (k : String) : List (String × α) → Option α
  | [] => none
  | kv :: rest => if kv.1 = k then some kv.2 else lookupAssoc k rest

/-! ## Offer protocol (driver_service.go AcceptRide) -/

/-- AcceptRideRequest from models. -/
structure AcceptRideRequest where
  rideId : String
  offerId : String
  deriving DecidableEq, Repr

/-- IsExpired from the RideOffer model: time.Now().After(expiresAt), that
is, expired exactly when expiresAt is strictly in the past. -/
def offerIsExpired (now : Nat) (o : Offer) : Bool :=
  decide (o.expiresAt < now)

/-- UPDATE ride_offers SET status=accepted, responded_at=now WHERE id=$3. -/
def acceptOfferRow (now : Nat) (offerId : String) (o : Offer) : Offer :=
  if o.id = offerId then
    { o with status := .accepted, respondedAt := some now } else o

/-- UPDATE rides SET driver_id=$1, status=driver_assigned WHERE id=$4. -/
def assignRideRow (driverID rideID : String) (r : Ride) : Ride :=
  if r.id = rideID then
    { r with driverId := some driverID, status := .driverAssigned } else r

/-- UPDATE drivers SET status=busy WHERE id=$3. -/
def busyDriverRow (driverID : String) (d : Driver) : Driver :=
  if d.id = driverID then { d with status := .busy } else d

/-- UPDATE ride_offers SET status=expired, responded_at=now WHERE
ride_id=$3 AND status=pending. -/
def expireSiblingRow (now : Nat) (rideID : String) (o : Offer) : Offer :=
  if o.rideId = rideID ∧ o.status = .pending then
    { o with status := .expired, respondedAt := some now } else o

/-- AcceptRide from driver_service.go: the guard chain in source order,
then the four updates of the transaction in source order, then the
post-commit presence-cache active-ride pointer.  An error rolls the
transaction back, so the error branches carry no state. -/
def acceptRide (db : DB) (now : Nat) (driverID : String)
    (req : AcceptRideRequest) : Except Err DB :=
  match lookupOffer req.offerId db.offers with
  | none => .error (.notFound "offer")
  | some offer =>
    if offer.driverId ≠ driverID then
      .error (.unauthorized "offer not for this driver")
    else if offer.rideId ≠ req.rideId then
      .error (.badRequest "offer ride mismatch")
    else if offerIsExpired now offer then
      .error .offerExpired
    else if offer.status ≠ .pending then
      .error (.badRequest "offer already responded")
    else
      match lookupRide req.rideId db.rides with
      | none => .error (.notFound "ride")
      | some ride =>
        if ride.status ≠ .matching then
          .error .rideAlreadyAssigned
        else
          let db1 :=
            { db with offers := db.offers.map (acceptOfferRow now offer.id) }
          let db2 :=
            { db1 with
              rides := db1.rides.map (assignRideRow driverID ride.id) }
          let db3 :=
            { db2 with drivers := db2.drivers.map (busyDriverRow driverID) }
          let db4 :=
            { db3 with
              offers := db3.offers.map (expireSiblingRow now ride.id) }
          .ok { db4 with activeRides := (driverID, ride.id) :: db4.activeRides }

/-- The state the caller observes after AcceptRide: the committed state on
success, the unchanged state after the deferred rollback on error. -/
def acceptRideState (db : DB) (now : Nat) (driverID : String)
    (req : AcceptRideRequest) : DB :=
  match acceptRide db now driverID req with
  | .ok db' => db'
  | .error _ => db

/-! ## Trip state machine (trip_service.go StartTrip) -/

/-- UPDATE rides SET status=$1 WHERE id=$3 (rideRepo.UpdateStatus). -/
def setRideStatusRow (rideID : String) (st : RideStatus) (r : Ride) : Ride :=
  if r.id = rideID then { r with status := st } else r

/-- StartTrip from trip_service.go, in source order: ride lookup, the
driver-arrived guard, the driver-assigned guard, the existing-trip
short-circuit, trip insertion (tripRepo.Create fixes status=started,
startTime=now, pauseDurationSecs=0), and the ride-status update to
in_progress.  newTripId stands for the generated UUID. -/
def startTrip (db : DB) (now : Nat) (newTripId : String) (rideID : String) :
    DB × Except Err Trip :=
  match lookupRide rideID db.rides with
  | none => (db, .error (.notFound "ride"))
  | some ride =>
    if ride.status ≠ .driverArrived then
      (db, .error (.badRequest "driver must arrive before starting trip"))
    else
      match ride.driverId with
      | none => (db, .error (.badRequest "no driver assigned"))
      | some drv =>
        match lookupTripByRide rideID db.trips with
        | some existingTrip => (db, .ok existingTrip)
        | none =>
          let trip : Trip :=
            { id := newTripId, rideId := rideID, driverId := drv,
              userId := ride.userId, status := .started,
              startTime := some now, endTime := none,
              pauseDurationSecs := 0 }
          let db1 := { db with trips := db.trips ++ [trip] }
          let db2 :=
            { db1 with
              rides := db1.rides.map (setRideStatusRow rideID .inProgress) }
          (db2, .ok trip)

/-! ## Matching engine (driver_service.go matching half) -/

/-- cache.DriverWithDistance: a nearby-query result entry. -/
structure DriverWithDistance where
  driverID : String
  distance : ℚ
  deriving DecidableEq, Repr

/-- ScoredDriver from the matching service. -/
structure ScoredDriver where
  driverID : String
  score : ℚ
  distance : ℚ
  deriving DecidableEq, Repr

/-- SELECT ... WHERE ride_id = $1 AND driver_id = $2 over ride_offers. -/
def lookupOfferByRideAndDriver (rid did : String) : List Offer → Option Offer
  | [] => none
  | o :: rest =>
    if o.rideId = rid ∧ o.driverId = did then some o
    else lookupOfferByRideAndDriver rid did rest

/-- Loop body of scoreDrivers: the three filters (existing offer for this
ride, presence status not online, non-empty active-ride pointer) and the
score 100 - 10*distanceKm + 5*rating.  A missing presence meta record is
the GetDriverMeta error path, which the source skips; a missing active-ride
key reads as the empty string, which passes the filter. -/
def scoreOne (db : DB) (rideID : String) (d : DriverWithDistance) :
    Option ScoredDriver :=
  if (lookupOfferByRideAndDriver rideID d.driverID db.offers).isSome then none
  else
    match lookupAssoc d.driverID db.meta with
    | none => none
    | some m =>
      if m.status ≠ .online then none
      else if ((lookupAssoc d.driverID db.activeRides).getD "") ≠ "" then none
      else some ⟨d.driverID, 100 - d.distance * 10 + m.rating * 5, d.distance⟩

/-- One step of the insertion sort Go's sort.Slice runs on slices shorter
than twelve elements, with the source's comparator, which compares scores
only: the element moves left past strictly lower scores and stops at the
first score greater than or equal to its own. -/
def insertByScore (x : ScoredDriver) :
    List ScoredDriver → List ScoredDriver
  | [] => [x]
  | y :: ys =>
    if x.score > y.score then x :: y :: ys else y :: insertByScore x ys

/-- sort.Slice(scored, score-descending): insertion sort, processing the
slice left to right as Go does.  Exact for the candidate lists reasoned
about here (fewer than twelve elements); for longer slices Go switches to
an unstable quicksort that agrees on score order but not on tie order. -/
def sortByScore (l : List ScoredDriver) : List ScoredDriver :=
  l.foldl (fun acc x => insertByScore x acc) []

/-- scoreDrivers from the matching service: filter and score each candidate, then sort
by descending score. -/
def scoreDrivers (db : DB) (rideID : String)
    (drivers : List DriverWithDistance) : List ScoredDriver :=
  sortByScore (drivers.filterMap (scoreOne db rideID))

/-- defaultOfferTimeout (15 s), in the second-valued instants used here. -/
def offerTimeout : Nat := 15

/-- Stands for the UUID the offer repository generates; unique per
(ride, driver), which is all the claims consume. -/
def newOfferId (rideID driverID : String) : String :=
  rideID ++ ":" ++ driverID

/-- offerRepo.Create: INSERT guarded by the unique (ride_id, driver_id)
constraint; fixes status=pending and offered_at=now, keeps the caller's
expires_at. -/
def offerCreate (db : DB) (rideID driverID : String) (now expiresAt : Nat) :
    Except Unit DB :=
  if (lookupOfferByRideAndDriver rideID driverID db.offers).isSome then
    .error ()
  else
    .ok { db with offers := db.offers ++
      [⟨newOfferId rideID driverID, rideID, driverID, .pending, now, none,
        expiresAt⟩] }

/-- The offer fan-out loop of FindAndOfferDrivers: create an offer per
scored driver, logging and skipping individual failures. -/
def createOffersLoop (rideID : String) (now : Nat) :
    List ScoredDriver → DB → DB
  | [], db => db
  | sd :: rest, db =>
    match offerCreate db rideID sd.driverID now (now + offerTimeout) with
    | .ok db' => createOffersLoop rideID now rest db'
    | .error _ => createOffersLoop rideID now rest db

/-- rideRepo.Cancel: UPDATE rides SET status=cancelled, cancelled_by=$2,
cancellation_reason=$3 WHERE id=$5. -/
def cancelRideRow (rideID cBy reason : String) (r : Ride) : Ride :=
  if r.id = rideID then
    { r with
      status := .cancelled
      cancelledBy := some cBy
      cancellationReason := some reason }
  else r

/-- driverRepo.GetOnlineDriversByVehicleType: online drivers of the class
with non-null coordinates. -/
def onlineDriversByVehicleType (db : DB) (vt : String) : List Driver :=
  db.drivers.filter (fun d => decide (d.status = .online ∧
    d.vehicleType = vt ∧ d.currentLat ≠ none ∧ d.currentLng ≠ none))

/-- Tail of FindAndOfferDrivers once a candidate list exists: score, the
empty-result NO_DRIVERS_AVAILABLE return (without cancelling), and the offer
loop over the top three. -/
def processCandidates (db : DB) (cands : List DriverWithDistance)
    (ride : Ride) (now : Nat) : DB × Option Err :=
  let scored := scoreDrivers db ride.id cands
  if scored.isEmpty then (db, some .noDriversAvailable)
  else (createOffersLoop ride.id now (scored.take 3) db, none)

/-- FindAndOfferDrivers from the matching service.  nearbyDrivers is the
spatial-index query result (the Redis geo cache, an external component)
exactly as the Go code receives it.  When it is empty the durable store is
the fallback; when that is empty too the ride is cancelled by system. -/
def findAndOfferDrivers (db : DB) (nearbyDrivers : List DriverWithDistance)
    (ride : Ride) (now : Nat) : DB × Option Err :=
  if nearbyDrivers.isEmpty then
    let dbDrivers := onlineDriversByVehicleType db ride.vehicleType
    if dbDrivers.isEmpty then
      ({ db with rides :=
          db.rides.map (cancelRideRow ride.id "system" "no drivers available") },
        some .noDriversAvailable)
    else
      let cands := dbDrivers.filterMap (fun d =>
        if d.currentLat ≠ none ∧ d.currentLng ≠ none then
          some ⟨d.id, 0⟩ else none)
      processCandidates db cands ride now
  else
    processCandidates db nearbyDrivers ride now

/-! ## Ride creation (ride_service.go CreateRide) -/

/-- CreateRideRequest from models (addresses omitted: never read by the
dispatch core beyond copying). -/
structure CreateRideRequest where
  userId : String
  pickupLat : ℚ
  pickupLng : ℚ
  dropoffLat : ℚ
  dropoffLng : ℚ
  vehicleType : String
  paymentMethod : String
  deriving DecidableEq, Repr

/-- SELECT ... WHERE idempotency_key = $1 over rides. -/
def lookupRideByIdemKey (key : String) : List Ride → Option Ride
  | [] => none
  | r :: rest =>
    if r.idempotencyKey = some key then some r
    else lookupRideByIdemKey key rest

/-- rideRepo.GetActiveRideByUserID: a ride of the user outside
{completed, cancelled} (most recent first; list order stands for the
ORDER BY created_at DESC). -/
def getActiveRideByUserID (uid : String) : List Ride → Option Ride
  | [] => none
  | r :: rest =>
    if r.userId = uid ∧ r.status ≠ .completed ∧ r.status ≠ .cancelled then
      some r
    else getActiveRideByUserID uid rest

/-- The estimated surge of CreateRide (ride_service.go lines 81-89): with
the driver cache present, if the 2 km pickup-cell query returned fewer
than five drivers, CalculateSurge(demand=10, supply=count); otherwise the
initial 1.0. -/
def createRideSurge (nearbyCount : ℕ) : ℚ :=
  if nearbyCount < 5 then calculateSurge 10 nearbyCount else 1.0

/-- rideRepo.Create: before the INSERT the repository overwrites the
struct's Status to pending and its SurgeMultiplier to 1.0 (ride_repo.go
lines 40-41), then inserts the struct's fields as the row. -/
def rideRepoCreate (db : DB) (ride : Ride) : DB × Ride :=
  let inserted :=
    { ride with
      status := RideStatus.pending
      surgeMultiplier := 1.0 }
  ({ db with rides := db.rides ++ [inserted] }, inserted)

/-- CreateRide from ride_service.go.  estDistanceKm stands for
EstimateDistance on the request coordinates (haversine times road factor;
transcendental, so passed as the value the pricing service returned) and
nearbyCount for the length of the 2 km nearby-driver query on the cache.
newRideId stands for the generated UUID. -/
def createRide (db : DB) (req : CreateRideRequest) (idemKey : String)
    (newRideId : String) (nearbyCount : ℕ) (estDistanceKm : ℚ) :
    DB × Except Err Ride :=
  match (if idemKey ≠ "" then lookupRideByIdemKey idemKey db.rides
         else none) with
  | some existing => (db, .ok existing)
  | none =>
    if req.userId ∉ db.users then (db, .error (.notFound "user"))
    else
      match getActiveRideByUserID req.userId db.rides with
      | some _ => (db, .error .userHasActiveRide)
      | none =>
        let distanceKm := estDistanceKm
        let durationMins := estimateDuration distanceKm
        let surgeMultiplier := createRideSurge nearbyCount
        let fare :=
          calculateFare req.vehicleType distanceKm durationMins
            surgeMultiplier
        let ride : Ride :=
          { id := newRideId, userId := req.userId, driverId := none,
            pickupLat := req.pickupLat, pickupLng := req.pickupLng,
            dropoffLat := req.dropoffLat, dropoffLng := req.dropoffLng,
            vehicleType := req.vehicleType, status := .pending,
            estimatedFare := some fare.total,
            surgeMultiplier := surgeMultiplier,
            estimatedDistanceKm := some distanceKm,
            estimatedDurationMin := some durationMins,
            paymentMethod := req.paymentMethod,
            idempotencyKey := if idemKey ≠ "" then some idemKey else none,
            cancelledBy := none, cancellationReason := none }
        let created := rideRepoCreate db ride
        let db2 :=
          { created.1 with rides :=
              created.1.rides.map (setRideStatusRow created.2.id .matching) }
        (db2, .ok { created.2 with status := .matching })

/-! ## Idempotency layer (middleware, IdempotencyMiddleware.Handler) -/

/-- HTTP method, as far as the middleware distinguishes them. -/
inductive HMethod where
  | get | post | put | patch | del | other
  deriving DecidableEq, Repr

/-- The methods the middleware applies to (POST, PUT, PATCH). -/
def isWriteMethod : HMethod → Bool
  | .post => true
  | .put => true
  | .patch => true
  | _ => false

/-- An HTTP response as the middleware sees it: status code, headers and
body (bodies and header values as strings). -/
structure HttpResp where
  status : Nat
  headers : List (String × String)
  body : String
  deriving DecidableEq, Repr

/-- cachedResponse from the middleware. -/
structure CachedResponse where
  statusCode : Nat
  headers : List (String × String)
  body : String
  bodyHash : String
  deriving DecidableEq, Repr

/-- The middleware's Redis keyspace: the response cache and the set of
currently held single-flight locks. -/
structure IdemState where
  cache : List (String × CachedResponse)
  locks : List String
  deriving DecidableEq, Repr

/-- The 409 idempotency-conflict response the middleware writes. -/
def idemConflictResp : HttpResp :=
  { status := 409, headers := [("Content-Type", "application/json")],
    body := "idempotency key already used with different request" }

/-- The 409 request-in-progress response the middleware writes. -/
def idemInProgressResp : HttpResp :=
  { status := 409, headers := [("Content-Type", "application/json")],
    body := "a request with this idempotency key is already being processed" }

/-- IdempotencyMiddleware.Handler as a function of one request: hash is
the body-hash function (SHA-256 hex in the source, passed abstractly: no
claim depends on its internals), key the Idempotency-Key header (empty
when absent) and down the response the downstream handler produces when
invoked.  Returns the final cache state and the response written to the
client.  The lock taken on a miss is released on every path (deferred
Del), so the lock set is returned unchanged. -/
def idemHandler (hash : String → String) (st : IdemState) (m : HMethod)
    (key : String) (body : String) (down : HttpResp) :
    IdemState × HttpResp :=
  if isWriteMethod m = false then (st, down)
  else if key = "" then (st, down)
  else
    let bodyHash := hash body
    let cacheKey := "idempotency:" ++ key
    match lookupAssoc cacheKey st.cache with
    | some cached =>
      if cached.bodyHash ≠ bodyHash then (st, idemConflictResp)
      else
        (st, { status := cached.statusCode, headers := cached.headers,
               body := cached.body })
    | none =>
      if (cacheKey ++ ":lock") ∈ st.locks then (st, idemInProgressResp)
      else
        let st' :=
          if 200 ≤ down.status ∧ down.status < 300 then
            { st with cache :=
              (cacheKey,
                { statusCode := down.status
                  headers :=
                    [("Content-Type",
                      ((lookupAssoc "Content-Type" down.headers).getD ""))]
                  body := down.body
                  bodyHash := bodyHash }) :: st.cache }
          else st
        (st', down)

/-! ## Rate limiter (middleware RateLimiter.isAllowed) -/

/-- The limiter's Redis keyspace: per-key counters and per-key TTLs. -/
structure RLState where
  counters : List (String × Nat)
  ttls : List (String × Nat)
  deriving DecidableEq, Repr

/-- Redis SET (update or insert the first binding of the key). -/
def setAssoc {α : Type} (k : String) (v : α) :
    List (String × α) → List (String × α)
  | [] => [(k, v)]
  | kv :: rest => if kv.1 = k then (k, v) :: rest else kv :: setAssoc k v rest

/-- The counter key the Handler builds: ratelimit:clientIdentity:path. -/
def rateLimitKey (clientIP path : String) : String :=
  "ratelimit:" ++ clientIP ++ ":" ++ path

/-- isAllowed from the rate limiter: the Redis pipeline INCR then EXPIRE
(EXPIRE with no condition flag sets the TTL to the window length on every
call), then allowed = count less-or-equal the limit and remaining =
limit - count clamped at zero. -/
def isAllowed (requests window : Nat) (st : RLState) (key : String) :
    RLState × Bool × ℤ :=
  let count := (lookupAssoc key st.counters).getD 0 + 1
  let counters := setAssoc key count st.counters
  let ttls := setAssoc key window st.ttls
  let remaining0 : ℤ := (requests : ℤ) - (count : ℤ)
  let remaining := if remaining0 < 0 then 0 else remaining0
  (⟨counters, ttls⟩, decide (count ≤ requests), remaining)

/-! ## Helper lemmas -/

theorem lookupAssoc_setAssoc {α : Type} (k : String) (v : α)
    (l : List (String × α)) : lookupAssoc k (setAssoc k v l) = some v := by
  induction l with
  | nil => simp [setAssoc, lookupAssoc]
  | cons kv rest ih =>
    by_cases h : kv.1 = k
    · simp [setAssoc, h, lookupAssoc]
    · simp [setAssoc, h, lookupAssoc, ih]

theorem lookupOffer_mem_id (oid : String) (l : List Offer) (o : Offer)
    (h : lookupOffer oid l = some o) : o ∈ l ∧ o.id = oid := by
  induction l with
  | nil => simp [lookupOffer] at h
  | cons a rest ih =>
    by_cases ha : a.id = oid
    · simp [lookupOffer, ha] at h
      exact ⟨by simp [← h], h ▸ ha⟩
    · simp [lookupOffer, ha] at h
      rcases ih h with ⟨hm, hid⟩
      exact ⟨by simp [hm], hid⟩

theorem lookupRide_mem_id (rid : String) (l : List Ride) (r : Ride)
    (h : lookupRide rid l = some r) : r ∈ l ∧ r.id = rid := by
  induction l with
  | nil => simp [lookupRide] at h
  | cons a rest ih =>
    by_cases ha : a.id = rid
    · simp [lookupRide, ha] at h
      exact ⟨by simp [← h], h ▸ ha⟩
    · simp [lookupRide, ha] at h
      rcases ih h with ⟨hm, hid⟩
      exact ⟨by simp [hm], hid⟩

theorem lookupRide_map_setStatus (rid : String) (st : RideStatus)
    (l : List Ride) :
    lookupRide rid (l.map (setRideStatusRow rid st)) =
      (lookupRide rid l).map (fun r => { r with status := st }) := by
  induction l with
  | nil => rfl
  | cons r rest ih =>
    by_cases h : r.id = rid
    · simp [lookupRide, setRideStatusRow, h]
    · simp [lookupRide, setRideStatusRow, h, ih]

theorem lookupTripByRide_append (rid : String) (l : List Trip) (t : Trip)
    (h : lookupTripByRide rid l = none) (ht : t.rideId = rid) :
    lookupTripByRide rid (l ++ [t]) = some t := by
  induction l with
  | nil => simp [lookupTripByRide, ht]
  | cons a rest ih =>
    by_cases ha : a.rideId = rid
    · simp [lookupTripByRide, ha] at h
    · simp [lookupTripByRide, ha] at h ⊢
      exact ih h

/-! ## Test fixtures (concrete rows used by witnesses and
counterexamples) -/

/-- A ride row template; fixtures below override individual fields. -/
def baseRide : Ride :=
  { id := "r1", userId := "u1", driverId := none, pickupLat := 0,
    pickupLng := 0, dropoffLat := 0, dropoffLng := 0,
    vehicleType := "sedan", status := .pending, estimatedFare := none,
    surgeMultiplier := 1, estimatedDistanceKm := none,
    estimatedDurationMin := none, paymentMethod := "cash",
    idempotencyKey := none, cancelledBy := none,
    cancellationReason := none }

/-- An empty store. -/
def emptyDB : DB :=
  { users := [], rides := [], drivers := [], offers := [], trips := [],
    meta := [], activeRides := [] }

/-! ## Claim C9 (rate limiter) -/

/-- Claim C9 counterexample: a key that already carries a TTL of 5 has its
TTL reset to the window length (60) by the next isAllowed call, so the TTL
is not set only when absent: the Redis pipeline runs an unconditional
EXPIRE on every request. -/
theorem rateLimiter_ttl_reset_on_every_request :
    lookupAssoc "k"
      ({ counters := [("k", 3)], ttls := [("k", 5)] } : RLState).ttls =
      some 5 ∧
    lookupAssoc "k"
      (isAllowed 100 60 { counters := [("k", 3)], ttls := [("k", 5)] }
        "k").1.ttls = some 60 := by
  constructor <;> rfl

/-- Claim C9 (amended): on each request the limiter atomically increments
the counter keyed by client identity and path, sets the counter's TTL to
the window length on every call (refreshing any TTL already present, so
the window is not fixed), and rejects exactly when the post-increment
count exceeds the configured limit. -/
theorem rateLimiter_behavior (requests window : Nat) (st : RLState)
    (clientIP path : String) :
    lookupAssoc (rateLimitKey clientIP path)
        (isAllowed requests window st (rateLimitKey clientIP path)).1.counters =
      some ((lookupAssoc (rateLimitKey clientIP path) st.counters).getD 0 + 1) ∧
    lookupAssoc (rateLimitKey clientIP path)
        (isAllowed requests window st (rateLimitKey clientIP path)).1.ttls =
      some window ∧
    ((isAllowed requests window st (rateLimitKey clientIP path)).2.1 = false ↔
      requests <
        (lookupAssoc (rateLimitKey clientIP path) st.counters).getD 0 + 1) := by
  refine ⟨?_, ?_, ?_⟩
  · simp [isAllowed, lookupAssoc_setAssoc]
  · simp [isAllowed, lookupAssoc_setAssoc]
  · simp [isAllowed, not_le]

/-- Limiter state fixture for the C9 witness: the counter for the ride
endpoint sits at 3 with no TTL recorded. -/
def stC9 : RLState :=
  { counters := [(rateLimitKey "ip" "/v1/rides", 3)], ttls := [] }

/-- Claim C9 witness: the amended limiter theorem evaluated at a concrete
state: the counter key at count 3 is bumped to 4, its TTL becomes the
window length, and with limit 100 the request is allowed. -/
theorem rateLimiter_behavior_witness :
    lookupAssoc (rateLimitKey "ip" "/v1/rides")
      (isAllowed 100 60 stC9 (rateLimitKey "ip" "/v1/rides")).1.counters =
      some 4 ∧
    lookupAssoc (rateLimitKey "ip" "/v1/rides")
      (isAllowed 100 60 stC9 (rateLimitKey "ip" "/v1/rides")).1.ttls =
      some 60 := by
  have h := rateLimiter_behavior 100 60 stC9 "ip" "/v1/rides"
  exact ⟨h.1, h.2.1⟩

/-! ## Claim C1 (surge persisted at ride creation) -/

/-- Store for the C1 run: the requesting user exists, no rides yet. -/
def dbC1 : DB := { emptyDB with users := ["u1"] }

/-- The C1 ride request: sedan from the origin. -/
def reqC1 : CreateRideRequest :=
  ⟨"u1", 0, 0, 1, 1, "sedan", "cash"⟩

/-- The ride CreateRide returns on the C1 run: every field as the service
builds it, except that status and surge multiplier carry what
rideRepo.Create overwrote. -/
def rideOutC1 : Ride :=
  { id := "r1", userId := "u1", driverId := none, pickupLat := 0,
    pickupLng := 0, dropoffLat := 1, dropoffLng := 1,
    vehicleType := "sedan", status := .matching,
    estimatedFare :=
      some (calculateFare "sedan" 10 (estimateDuration 10)
        (createRideSurge 0)).total,
    surgeMultiplier := 1.0, estimatedDistanceKm := some 10,
    estimatedDurationMin := some (estimateDuration 10),
    paymentMethod := "cash", idempotencyKey := none, cancelledBy := none,
    cancellationReason := none }

/-- Claim C1 (code bug): with zero candidate drivers within 2 km of the
pickup, the estimated surge derived from the pickup cell is
CalculateSurge(10, 0) = 2.0 and the estimated fare stored on the ride is
computed with that surge, yet the surge multiplier persisted on the rides
row - and the one on the returned ride, which trip settlement later reads -
is 1.0: rideRepo.Create overwrites ride.SurgeMultiplier with 1.0 just
before the INSERT, so the estimated surge is never persisted. -/
theorem createRide_surge_not_persisted :
    createRideSurge 0 = 2 ∧
    (createRide dbC1 reqC1 "" "r1" 0 10).2 = .ok rideOutC1 ∧
    rideOutC1.surgeMultiplier = 1 ∧
    lookupRide "r1" (createRide dbC1 reqC1 "" "r1" 0 10).1.rides =
      some rideOutC1 ∧
    rideOutC1.estimatedFare =
      some (calculateFare "sedan" 10 (estimateDuration 10)
        (calculateSurge 10 0)).total ∧
    rideOutC1.surgeMultiplier ≠ createRideSurge 0 := by
  have hsurge : createRideSurge 0 = 2 := by
    norm_num [createRideSurge, calculateSurge]
  refine ⟨hsurge, rfl, by norm_num [rideOutC1], rfl, ?_, ?_⟩
  · simp [rideOutC1, createRideSurge, calculateSurge]
  · rw [hsurge]
    norm_num [rideOutC1]

/-! ## Claim C2 (StartTrip guards and idempotency) -/

/-- Ride fixture for C2: driver d1 has arrived. -/
def rideC2 : Ride :=
  { baseRide with driverId := some "d1", status := .driverArrived }

/-- Store fixture for C2. -/
def dbC2 : DB := { emptyDB with users := ["u1"], rides := [rideC2] }

/-- The trip the first StartTrip call creates on the C2 store. -/
def tripC2 : Trip :=
  { id := "t1", rideId := "r1", driverId := "d1", userId := "u1",
    status := .started, startTime := some 10, endTime := none,
    pauseDurationSecs := 0 }

/-- Claim C2 counterexample: on a ride in driver_arrived the first
StartTrip succeeds and advances the ride to in_progress; the second call
then fails with BAD_REQUEST instead of returning the existing trip,
because the driver-arrived guard runs before the existing-trip check.  So
StartTrip is not idempotent after a success. -/
theorem startTrip_second_call_fails :
    (startTrip dbC2 10 "t1" "r1").2 = .ok tripC2 ∧
    (startTrip (startTrip dbC2 10 "t1" "r1").1 20 "t2" "r1").2 =
      .error (.badRequest "driver must arrive before starting trip") := by
  constructor <;> rfl

/-- Claim C2 (amended): StartTrip succeeds only when the ride exists, is
in driver_arrived and has a driver assigned; when no trip exists yet it
creates a trip with status started and startTime now and advances the ride
to in_progress; and when a trip already exists while the ride is still in
driver_arrived (the only situation in which the existing-trip
short-circuit is reachable, since a successful start moves the ride to
in_progress), it returns the existing trip unchanged.  A second call after
a success therefore fails with BAD_REQUEST rather than returning the
trip. -/
theorem startTrip_spec :
    (∀ (db : DB) (now : Nat) (tid rid : String) (db' : DB) (trip : Trip),
      startTrip db now tid rid = (db', Except.ok trip) →
      ∃ ride, lookupRide rid db.rides = some ride ∧
        ride.status = RideStatus.driverArrived ∧ ride.driverId.isSome) ∧
    (∀ (db : DB) (now : Nat) (tid rid : String) (ride : Ride) (d : String),
      lookupRide rid db.rides = some ride →
      ride.status = RideStatus.driverArrived →
      ride.driverId = some d →
      lookupTripByRide rid db.trips = none →
      (startTrip db now tid rid).2 =
        Except.ok ⟨tid, rid, d, ride.userId, .started, some now, none, 0⟩ ∧
      lookupRide rid (startTrip db now tid rid).1.rides =
        some { ride with status := RideStatus.inProgress } ∧
      lookupTripByRide rid (startTrip db now tid rid).1.trips =
        some ⟨tid, rid, d, ride.userId, .started, some now, none, 0⟩) ∧
    (∀ (db : DB) (now : Nat) (tid rid : String) (ride : Ride) (d : String)
        (t : Trip),
      lookupRide rid db.rides = some ride →
      ride.status = RideStatus.driverArrived →
      ride.driverId = some d →
      lookupTripByRide rid db.trips = some t →
      startTrip db now tid rid = (db, Except.ok t)) := by
  refine ⟨?_, ?_, ?_⟩
  · intro db now tid rid db' trip h
    unfold startTrip at h
    cases hr : lookupRide rid db.rides with
    | none => rw [hr] at h; simp at h
    | some ride =>
      rw [hr] at h
      dsimp only at h
      by_cases hs : ride.status = RideStatus.driverArrived
      · rw [if_neg (by simp [hs])] at h
        cases hd : ride.driverId with
        | none => rw [hd] at h; simp at h
        | some d => exact ⟨ride, rfl, hs, by simp [hd]⟩
      · rw [if_pos hs] at h
        simp at h
  · intro db now tid rid ride d hr hs hd ht
    have happ := lookupTripByRide_append rid db.trips
      ⟨tid, rid, d, ride.userId, .started, some now, none, 0⟩ ht rfl
    unfold startTrip
    rw [hr]
    dsimp only
    rw [if_neg (by simp [hs]), hd, ht]
    dsimp only
    refine ⟨rfl, ?_, ?_⟩
    · simp [lookupRide_map_setStatus, hr, hd]
    · exact happ
  · intro db now tid rid ride d t hr hs hd ht
    unfold startTrip
    rw [hr]
    dsimp only
    rw [if_neg (by simp [hs]), hd, ht]

/-- Claim C2 witness: the amended StartTrip theorem evaluated on the C2
fixture: the first call creates the trip and moves the ride to
in_progress. -/
theorem startTrip_spec_witness :
    lookupRide "r1" dbC2.rides = some rideC2 ∧
    (startTrip dbC2 10 "t1" "r1").2 = Except.ok tripC2 ∧
    lookupRide "r1" (startTrip dbC2 10 "t1" "r1").1.rides =
      some { rideC2 with status := RideStatus.inProgress } := by
  have h := startTrip_spec.2.1 dbC2 10 "t1" "r1" rideC2 "d1" rfl rfl rfl rfl
  exact ⟨rfl, h.1, h.2.1⟩

/-! ## Claim C10 (filtered-out candidates do not cancel the ride) -/

theorem createOffersLoop_rides (rid : String) (now : Nat)
    (l : List ScoredDriver) (db : DB) :
    (createOffersLoop rid now l db).rides = db.rides := by
  induction l generalizing db with
  | nil => rfl
  | cons sd rest ih =>
    unfold createOffersLoop offerCreate
    by_cases h : (lookupOfferByRideAndDriver rid sd.driverID db.offers).isSome
    · simp [h, ih]
    · simp [h, ih]

/-- Claim C10: when the spatial index returned at least one candidate but
the filters drop every one, FindAndOfferDrivers returns
NO_DRIVERS_AVAILABLE with the store unchanged; and more generally, on a
non-empty candidate list the rides table is never written, so the ride's
status, cancelledBy and cancellationReason stay as they were (cancellation
happens only on the path where both the spatial index and the durable
store were empty). -/
theorem findAndOfferDrivers_filtered_out_no_cancel :
    (∀ (db : DB) (nearby : List DriverWithDistance) (ride : Ride)
        (now : Nat),
      nearby ≠ [] →
      scoreDrivers db ride.id nearby = [] →
      findAndOfferDrivers db nearby ride now =
        (db, some Err.noDriversAvailable)) ∧
    (∀ (db : DB) (nearby : List DriverWithDistance) (ride : Ride)
        (now : Nat),
      nearby ≠ [] →
      (findAndOfferDrivers db nearby ride now).1.rides = db.rides) := by
  constructor
  · intro db nearby ride now hne hs
    unfold findAndOfferDrivers
    rw [if_neg (by simpa [List.isEmpty_iff] using hne)]
    unfold processCandidates
    rw [hs]
    rfl
  · intro db nearby ride now hne
    unfold findAndOfferDrivers
    rw [if_neg (by simpa [List.isEmpty_iff] using hne)]
    unfold processCandidates
    by_cases hs : (scoreDrivers db ride.id nearby).isEmpty
    · simp [hs]
    · simp [hs, createOffersLoop_rides]

/-- Ride fixture for the C10 witness: a ride in matching. -/
def rideC10 : Ride := { baseRide with id := "r10", status := .matching }

/-- Claim C10 witness: one candidate comes back from the spatial index but
has no presence meta record, so the filters drop it; the call returns
NO_DRIVERS_AVAILABLE and the store - including the ride row - is
untouched. -/
theorem findAndOfferDrivers_witness :
    ([⟨"d9", 1⟩] : List DriverWithDistance) ≠ [] ∧
    scoreDrivers { emptyDB with rides := [rideC10] } rideC10.id
      [⟨"d9", 1⟩] = [] ∧
    findAndOfferDrivers { emptyDB with rides := [rideC10] } [⟨"d9", 1⟩]
      rideC10 7 =
      ({ emptyDB with rides := [rideC10] }, some Err.noDriversAvailable) :=
  ⟨by simp, rfl,
    findAndOfferDrivers_filtered_out_no_cancel.1
      { emptyDB with rides := [rideC10] } [⟨"d9", 1⟩] rideC10 7
      (by simp) rfl⟩

/-! ## Claim C4 (AcceptRide failure taxonomy) -/

/-- Claim C4 (amended): AcceptRide fails with the spec's taxonomy, its
checks performed in source order: NOT_FOUND if the offer is absent;
UNAUTHORIZED if the offer's driverId differs from the caller; BAD_REQUEST
if the offer's rideId differs from the argument; OFFER_EXPIRED if
expiresAt < now, strictly - an accept arriving exactly at the expiry
instant is not treated as expired, since IsExpired is
time.Now().After(expiresAt); BAD_REQUEST if the offer status is not
pending; then NOT_FOUND if the ride is absent; RIDE_ALREADY_ASSIGNED if
the ride status is not matching. -/
theorem acceptRide_error_taxonomy (db : DB) (now : Nat) (drv : String)
    (req : AcceptRideRequest) :
    (lookupOffer req.offerId db.offers = none →
      acceptRide db now drv req = .error (.notFound "offer")) ∧
    (∀ o, lookupOffer req.offerId db.offers = some o →
      (o.driverId ≠ drv →
        acceptRide db now drv req =
          .error (.unauthorized "offer not for this driver")) ∧
      (o.driverId = drv → o.rideId ≠ req.rideId →
        acceptRide db now drv req =
          .error (.badRequest "offer ride mismatch")) ∧
      (o.driverId = drv → o.rideId = req.rideId → o.expiresAt < now →
        acceptRide db now drv req = .error .offerExpired) ∧
      (o.driverId = drv → o.rideId = req.rideId → ¬ o.expiresAt < now →
        o.status ≠ .pending →
        acceptRide db now drv req =
          .error (.badRequest "offer already responded")) ∧
      (o.driverId = drv → o.rideId = req.rideId → ¬ o.expiresAt < now →
        o.status = .pending →
        (lookupRide req.rideId db.rides = none →
          acceptRide db now drv req = .error (.notFound "ride")) ∧
        (∀ r, lookupRide req.rideId db.rides = some r →
          r.status ≠ .matching →
          acceptRide db now drv req = .error .rideAlreadyAssigned))) := by
  constructor
  · intro h
    unfold acceptRide
    rw [h]
  · intro o ho
    unfold acceptRide
    rw [ho]
    dsimp only
    refine ⟨?_, ?_, ?_, ?_, ?_⟩
    · intro h1
      rw [if_pos h1]
    · intro h1 h2
      rw [if_neg (by simp [h1]), if_pos h2]
    · intro h1 h2 h3
      rw [if_neg (by simp [h1]), if_neg (by simp [h2]),
        if_pos (by simp [offerIsExpired, h3])]
    · intro h1 h2 h3 h4
      rw [if_neg (by simp [h1]), if_neg (by simp [h2]),
        if_neg (by simp [offerIsExpired, h3]), if_pos h4]
    · intro h1 h2 h3 h4
      constructor
      · intro hr
        rw [if_neg (by simp [h1]), if_neg (by simp [h2]),
          if_neg (by simp [offerIsExpired, h3]), if_neg (by simp [h4]), hr]
      · intro r hr hrm
        rw [if_neg (by simp [h1]), if_neg (by simp [h2]),
          if_neg (by simp [offerIsExpired, h3]), if_neg (by simp [h4]), hr]
        dsimp only
        rw [if_pos hrm]

/-- Offer fixture for C4: pending, for driver d1 and ride r1, expiring at
instant 100. -/
def offerC4 : Offer := ⟨"o1", "r1", "d1", .pending, 0, none, 100⟩

/-- Ride fixture for C4: r1 still in matching. -/
def rideC4 : Ride := { baseRide with status := .matching }

/-- Store fixture for C4. -/
def dbC4 : DB := { emptyDB with rides := [rideC4], offers := [offerC4] }

/-- The committed store after the boundary accept of the C4
counterexample. -/
def dbC4' : DB :=
  { emptyDB with
    rides :=
      [{ rideC4 with driverId := some "d1", status := .driverAssigned }]
    offers :=
      [{ offerC4 with status := .accepted, respondedAt := some 100 }]
    activeRides := [("d1", "r1")] }

/-- Claim C4 counterexample: at now = expiresAt the condition
expiresAt ≤ now of the claim holds, yet AcceptRide does not fail with
OFFER_EXPIRED - it succeeds and commits the assignment, because IsExpired
tests time.Now().After(expiresAt), which is strict. -/
theorem acceptRide_expiry_boundary :
    offerC4.expiresAt ≤ 100 ∧
    acceptRide dbC4 100 "d1" ⟨"r1", "o1"⟩ = .ok dbC4' := by
  exact ⟨by norm_num [offerC4], rfl⟩

/-- Claim C4 witness: the taxonomy theorem applied on the C4 fixture one
instant after expiry: the accept fails with OFFER_EXPIRED. -/
theorem acceptRide_error_taxonomy_witness :
    lookupOffer "o1" dbC4.offers = some offerC4 ∧
    offerC4.expiresAt < 101 ∧
    acceptRide dbC4 101 "d1" ⟨"r1", "o1"⟩ = .error .offerExpired := by
  refine ⟨rfl, by norm_num [offerC4], ?_⟩
  exact (((acceptRide_error_taxonomy dbC4 101 "d1" ⟨"r1", "o1"⟩).2 offerC4
    rfl).2.2.1) rfl rfl (by norm_num [offerC4])

/-! ## Claim C5 (AcceptRide atomicity) -/

/-- Claim C5: AcceptRide is atomic: when it returns an error the deferred
rollback leaves the store exactly as it was - in particular the offer row,
the ride row, the driver row and the sibling offers of the ride are all
unchanged. -/
theorem acceptRide_error_leaves_state_unchanged (db : DB) (now : Nat)
    (drv : String) (req : AcceptRideRequest) (e : Err)
    (h : acceptRide db now drv req = .error e) :
    acceptRideState db now drv req = db ∧
    lookupOffer req.offerId (acceptRideState db now drv req).offers =
      lookupOffer req.offerId db.offers ∧
    lookupRide req.rideId (acceptRideState db now drv req).rides =
      lookupRide req.rideId db.rides ∧
    lookupDriver drv (acceptRideState db now drv req).drivers =
      lookupDriver drv db.drivers ∧
    (acceptRideState db now drv req).offers = db.offers := by
  have hst : acceptRideState db now drv req = db := by
    unfold acceptRideState
    rw [h]
  exact ⟨hst, by rw [hst], by rw [hst], by rw [hst], by rw [hst]⟩

/-- Claim C5 witness: a failing accept (caller does not own the offer)
leaves the store untouched. -/
theorem acceptRide_error_witness :
    acceptRide dbC4 100 "dX" ⟨"r1", "o1"⟩ =
      .error (.unauthorized "offer not for this driver") ∧
    acceptRideState dbC4 100 "dX" ⟨"r1", "o1"⟩ = dbC4 :=
  ⟨rfl,
    (acceptRide_error_leaves_state_unchanged dbC4 100 "dX" ⟨"r1", "o1"⟩
      (.unauthorized "offer not for this driver") rfl).1⟩

/-! ## Claim C8 (idempotency layer) -/

/-- Claim C8: for a request of a method the middleware guards (POST, PUT,
PATCH) carrying an idempotency key: on a cache hit whose stored body hash
equals the hash of the request body, the stored status, headers and body
are replayed verbatim and the cache is unchanged; on a hit with a
different hash the request fails with the 409 idempotency-conflict
response; on a miss with the lock free, the response is persisted under
the key exactly when the downstream status lies in [200, 300), so 4xx and
5xx responses are never cached and the state is returned unchanged. -/
theorem idempotency_middleware_spec (hash : String → String)
    (st : IdemState) (m : HMethod) (key body : String) (down : HttpResp)
    (hm : isWriteMethod m = true) (hk : key ≠ "") :
    (∀ c, lookupAssoc ("idempotency:" ++ key) st.cache = some c →
      (c.bodyHash = hash body →
        idemHandler hash st m key body down =
          (st, { status := c.statusCode, headers := c.headers,
                 body := c.body })) ∧
      (c.bodyHash ≠ hash body →
        idemHandler hash st m key body down = (st, idemConflictResp))) ∧
    (lookupAssoc ("idempotency:" ++ key) st.cache = none →
      ("idempotency:" ++ key ++ ":lock") ∉ st.locks →
      (200 ≤ down.status ∧ down.status < 300 →
        (idemHandler hash st m key body down).2 = down ∧
        lookupAssoc ("idempotency:" ++ key)
            (idemHandler hash st m key body down).1.cache =
          some { statusCode := down.status,
                 headers := [("Content-Type",
                   ((lookupAssoc "Content-Type" down.headers).getD ""))],
                 body := down.body, bodyHash := hash body }) ∧
      (¬ (200 ≤ down.status ∧ down.status < 300) →
        idemHandler hash st m key body down = (st, down))) := by
  constructor
  · intro c hc
    unfold idemHandler
    rw [if_neg (by simp [hm]), if_neg hk]
    dsimp only
    rw [hc]
    dsimp only
    constructor
    · intro heq
      rw [if_neg (by simp [heq])]
    · intro hne
      rw [if_pos hne]
  · intro hc hlock
    unfold idemHandler
    rw [if_neg (by simp [hm]), if_neg hk]
    dsimp only
    rw [hc]
    dsimp only
    rw [if_neg hlock]
    constructor
    · intro h2xx
      rw [if_pos h2xx]
      exact ⟨rfl, by simp [lookupAssoc]⟩
    · intro h2xx
      rw [if_neg h2xx]

/-- Cached entry fixture for the C8 witness. -/
def cachedC8 : CachedResponse :=
  ⟨201, [("Content-Type", "application/json")], "cached-body", "h1"⟩

/-- Cache state fixture for the C8 witness: one entry under key k. -/
def stC8 : IdemState := { cache := [("idempotency:k", cachedC8)], locks := [] }

/-- Claim C8 witness: a POST replay with matching body hash returns the
stored 201 response verbatim (the hash function is instantiated with a
stand-in agreeing with the stored hash on this body). -/
theorem idempotency_middleware_witness :
    isWriteMethod .post = true ∧ ("k" : String) ≠ "" ∧
    idemHandler (fun _ => "h1") stC8 .post "k" "body" ⟨500, [], "oops"⟩ =
      (stC8, { status := 201,
               headers := [("Content-Type", "application/json")],
               body := "cached-body" }) := by
  refine ⟨rfl, by simp, ?_⟩
  exact ((idempotency_middleware_spec (fun _ => "h1") stC8 .post "k" "body"
    ⟨500, [], "oops"⟩ rfl (by simp)).1 cachedC8 rfl).1 rfl

/-! ## Claim C3 (AcceptRide success postconditions) -/

theorem countP_id_unique (l : List Offer) (oid : String) (o : Offer)
    (hmem : o ∈ l) (hid : o.id = oid) (hnodup : (l.map Offer.id).Nodup) :
    l.countP (fun x => decide (x.id = oid)) = 1 := by
  induction l with
  | nil => simp at hmem
  | cons a rest ih =>
    rw [List.map_cons, List.nodup_cons] at hnodup
    rcases List.mem_cons.mp hmem with rfl | hmem'
    · rw [List.countP_cons_of_pos _ _ (by simp [hid])]
      have hz : rest.countP (fun x => decide (x.id = oid)) = 0 := by
        rw [List.countP_eq_zero]
        intro b hb hbid
        simp only [decide_eq_true_eq] at hbid
        exact hnodup.1 (List.mem_map.mpr ⟨b, hb, by rw [hbid, hid]⟩)
      rw [hz]
    · have hane : a.id ≠ oid := by
        intro ha
        exact hnodup.1 (List.mem_map.mpr ⟨o, hmem', by rw [hid, ← ha]⟩)
      rw [List.countP_cons_of_neg _ _ (by simp [hane])]
      exact ih hmem' hnodup.2

/-- Claim C3: when AcceptRide succeeds, the accepted offer's row becomes
accepted with respondedAt set, the ride becomes driver_assigned with the
caller's driverId, the caller's driver row becomes busy, every sibling
offer of the ride that was pending becomes expired; and - provided the
ride had no accepted offer yet and offer ids are unique, both invariants
of a well-formed store - the ride ends with exactly one accepted offer. -/
theorem acceptRide_success_postconditions (db : DB) (now : Nat)
    (drv : String) (req : AcceptRideRequest) (db' : DB)
    (h : acceptRide db now drv req = .ok db') :
    (∀ o, lookupOffer req.offerId db.offers = some o →
      { o with status := OfferStatus.accepted, respondedAt := some now } ∈
        db'.offers) ∧
    (∀ r, lookupRide req.rideId db.rides = some r →
      { r with driverId := some drv, status := RideStatus.driverAssigned } ∈
        db'.rides) ∧
    (∀ d, d ∈ db.drivers → d.id = drv →
      { d with status := DriverStatus.busy } ∈ db'.drivers) ∧
    (∀ o, o ∈ db.offers → o.rideId = req.rideId →
      o.status = OfferStatus.pending → o.id ≠ req.offerId →
      { o with status := OfferStatus.expired, respondedAt := some now } ∈
        db'.offers) ∧
    (db.offers.countP (fun o =>
        decide (o.rideId = req.rideId ∧ o.status = OfferStatus.accepted)) =
        0 →
      (db.offers.map Offer.id).Nodup →
      db'.offers.countP (fun o =>
        decide (o.rideId = req.rideId ∧ o.status = OfferStatus.accepted)) =
        1) := by
  unfold acceptRide at h
  cases ho : lookupOffer req.offerId db.offers with
  | none => rw [ho] at h; simp at h
  | some offer =>
    rw [ho] at h
    dsimp only at h
    rcases lookupOffer_mem_id _ _ _ ho with ⟨homem, hoid⟩
    split_ifs at h with h1 h2 h3 h4
    revert h
    cases hr : lookupRide req.rideId db.rides with
    | none => intro h; simp at h
    | some ride =>
      intro h
      dsimp only at h
      rcases lookupRide_mem_id _ _ _ hr with ⟨hrmem, hrid⟩
      split_ifs at h with h5
      rw [Except.ok.injEq] at h
      subst h
      dsimp only
      have hdrv : offer.driverId = drv := not_not.mp h1
      have horid : offer.rideId = req.rideId := not_not.mp h2
      have hpend : offer.status = OfferStatus.pending := not_not.mp h4
      refine ⟨?_, ?_, ?_, ?_, ?_⟩
      · intro o ho'
        have hoo : offer = o := by
          simpa using ho'
        subst hoo
        rw [List.map_map]
        have himg :
            (expireSiblingRow now ride.id ∘ acceptOfferRow now offer.id)
              offer =
            { offer with status := OfferStatus.accepted, respondedAt := some now } := by
          simp [acceptOfferRow, expireSiblingRow]
        exact himg ▸ List.mem_map_of_mem _ homem
      · intro r hr'
        have hrr : ride = r := by
          simpa using hr'
        subst hrr
        have himg : assignRideRow drv ride.id ride =
            { ride with driverId := some drv, status := RideStatus.driverAssigned } := by
          simp [assignRideRow]
        exact himg ▸ List.mem_map_of_mem _ hrmem
      · intro d hd hdid
        have himg : busyDriverRow drv d =
            { d with status := DriverStatus.busy } := by
          simp [busyDriverRow, hdid]
        exact himg ▸ List.mem_map_of_mem _ hd
      · intro o hom horid' hop hone
        rw [List.map_map]
        have himg :
            (expireSiblingRow now ride.id ∘ acceptOfferRow now offer.id) o =
            { o with status := OfferStatus.expired, respondedAt := some now } := by
          have hne : o.id ≠ offer.id := by rw [hoid]; exact hone
          simp [acceptOfferRow, expireSiblingRow, hne, horid', hrid, hop]
        exact himg ▸ List.mem_map_of_mem _ hom
      · intro hzero hnodup
        rw [List.map_map, List.countP_map]
        have hz := List.countP_eq_zero.mp hzero
        have hcongr :
            db.offers.countP ((fun o => decide (o.rideId = req.rideId ∧
              o.status = OfferStatus.accepted)) ∘
              (expireSiblingRow now ride.id ∘ acceptOfferRow now offer.id)) =
            db.offers.countP (fun x => decide (x.id = req.offerId)) := by
          apply List.countP_congr
          intro x hx
          by_cases hxid : x.id = req.offerId
          · have hxo : x = offer :=
              List.inj_on_of_nodup_map hnodup hx homem (by rw [hxid, hoid])
            subst hxo
            simp [acceptOfferRow, expireSiblingRow, hxid, horid]
          · have hxid' : x.id ≠ offer.id := by rw [hoid]; exact hxid
            simp only [Function.comp_apply, acceptOfferRow, if_neg hxid']
            unfold expireSiblingRow
            by_cases hcond : x.rideId = ride.id ∧
                x.status = OfferStatus.pending
            · simp [hcond, hxid]
            · have hnacc := hz x hx
              simp only [decide_eq_true_eq] at hnacc
              simp only [if_neg hcond, decide_eq_true_eq]
              simp [hxid, hnacc]
        rw [hcongr]
        exact countP_id_unique db.offers req.offerId offer homem hoid hnodup

/-- Driver fixture for the C3 witness. -/
def driverC3 : Driver := ⟨"d1", .online, "sedan", 5, 0, none, none⟩

/-- Sibling pending offer (driver d2) for the C3 witness. -/
def offerC3b : Offer := ⟨"o2", "r1", "d2", .pending, 0, none, 100⟩

/-- Store fixture for the C3 witness: ride r1 in matching, two pending
offers, driver d1 online. -/
def dbC3 : DB :=
  { emptyDB with
    rides := [rideC4]
    drivers := [driverC3]
    offers := [offerC4, offerC3b] }

/-- The committed store after d1 accepts offer o1 on the C3 fixture. -/
def dbC3' : DB :=
  { emptyDB with
    rides :=
      [{ rideC4 with driverId := some "d1", status := .driverAssigned }]
    drivers := [{ driverC3 with status := .busy }]
    offers :=
      [{ offerC4 with status := .accepted, respondedAt := some 50 },
       { offerC3b with status := .expired, respondedAt := some 50 }]
    activeRides := [("d1", "r1")] }

/-- Claim C3 witness: the success-postcondition theorem evaluated on the
C3 fixture: the sibling pending offer ends expired and the ride ends with
exactly one accepted offer. -/
theorem acceptRide_success_witness :
    acceptRide dbC3 50 "d1" ⟨"r1", "o1"⟩ = .ok dbC3' ∧
    ({ offerC3b with status := OfferStatus.expired, respondedAt := some 50 } :
      Offer) ∈ dbC3'.offers ∧
    dbC3'.offers.countP (fun o =>
      decide (o.rideId = "r1" ∧ o.status = OfferStatus.accepted)) = 1 := by
  have h := acceptRide_success_postconditions dbC3 50 "d1" ⟨"r1", "o1"⟩
    dbC3' rfl
  exact ⟨rfl,
    h.2.2.2.1 offerC3b (by decide) rfl rfl (by decide),
    h.2.2.2.2 (by decide) (by decide)⟩

/-! ## Claim C7 (scoring, ordering and offer fan-out) -/

theorem mem_insertByScore (a x : ScoredDriver) (l : List ScoredDriver) :
    a ∈ insertByScore x l ↔ a = x ∨ a ∈ l := by
  induction l with
  | nil => simp [insertByScore]
  | cons y ys ih =>
    unfold insertByScore
    by_cases h : x.score > y.score
    · simp [h]
    · simp only [if_neg h, List.mem_cons, ih]
      tauto

theorem mem_sortByScore_aux (l acc : List ScoredDriver) (a : ScoredDriver) :
    a ∈ l.foldl (fun acc x => insertByScore x acc) acc ↔
      a ∈ acc ∨ a ∈ l := by
  induction l generalizing acc with
  | nil => simp
  | cons x xs ih =>
    simp only [List.foldl_cons, ih, mem_insertByScore, List.mem_cons]
    tauto

theorem mem_sortByScore (a : ScoredDriver) (l : List ScoredDriver) :
    a ∈ sortByScore l ↔ a ∈ l := by
  unfold sortByScore
  rw [mem_sortByScore_aux]
  simp

theorem sorted_insertByScore (x : ScoredDriver) (l : List ScoredDriver)
    (h : l.Sorted (fun a b => b.score ≤ a.score)) :
    (insertByScore x l).Sorted (fun a b => b.score ≤ a.score) := by
  induction l with
  | nil => simp [insertByScore]
  | cons y ys ih =>
    rw [List.sorted_cons] at h
    unfold insertByScore
    by_cases hxy : x.score > y.score
    · rw [if_pos hxy, List.sorted_cons]
      constructor
      · intro b hb
        rcases List.mem_cons.mp hb with rfl | hb'
        · exact le_of_lt hxy
        · exact le_trans (h.1 b hb') (le_of_lt hxy)
      · rw [List.sorted_cons]
        exact h
    · rw [if_neg hxy, List.sorted_cons]
      constructor
      · intro b hb
        rcases (mem_insertByScore b x ys).mp hb with rfl | hb'
        · exact not_lt.mp hxy
        · exact h.1 b hb'
      · exact ih h.2

theorem sorted_sortByScore_aux (l acc : List ScoredDriver)
    (hacc : acc.Sorted (fun a b => b.score ≤ a.score)) :
    (l.foldl (fun acc x => insertByScore x acc) acc).Sorted
      (fun a b => b.score ≤ a.score) := by
  induction l generalizing acc with
  | nil => exact hacc
  | cons x xs ih => exact ih _ (sorted_insertByScore x acc hacc)

theorem sorted_sortByScore (l : List ScoredDriver) :
    (sortByScore l).Sorted (fun a b => b.score ≤ a.score) :=
  sorted_sortByScore_aux l [] List.sorted_nil

theorem scoreOne_eq_some (db : DB) (rid : String) (d : DriverWithDistance)
    (s : ScoredDriver) (h : scoreOne db rid d = some s) :
    ∃ m, lookupAssoc d.driverID db.meta = some m ∧
      m.status = DriverStatus.online ∧
      s = ⟨d.driverID, 100 - d.distance * 10 + m.rating * 5, d.distance⟩ := by
  unfold scoreOne at h
  by_cases h1 : (lookupOfferByRideAndDriver rid d.driverID
      db.offers).isSome
  · rw [if_pos h1] at h
    simp at h
  · rw [if_neg h1] at h
    revert h
    cases hm : lookupAssoc d.driverID db.meta with
    | none => intro h; simp at h
    | some m =>
      intro h
      dsimp only at h
      split_ifs at h with h2 h3
      exact ⟨m, rfl, not_not.mp h2, by simpa using h.symm⟩

theorem createOffersLoop_offers (rid : String) (now : Nat)
    (tl : List ScoredDriver) (db : DB) (o : Offer)
    (h : o ∈ (createOffersLoop rid now tl db).offers) :
    o ∈ db.offers ∨
      (o.rideId = rid ∧ o.status = OfferStatus.pending ∧
       o.offeredAt = now ∧ o.expiresAt = now + offerTimeout ∧
       o.driverId ∈ tl.map ScoredDriver.driverID) := by
  induction tl generalizing db with
  | nil => exact Or.inl h
  | cons sd rest ih =>
    unfold createOffersLoop offerCreate at h
    by_cases hc : (lookupOfferByRideAndDriver rid sd.driverID
        db.offers).isSome
    · rw [if_pos hc] at h
      dsimp only at h
      rcases ih _ h with hin | ⟨p1, p2, p3, p4, p5⟩
      · exact Or.inl hin
      · refine Or.inr ⟨p1, p2, p3, p4, ?_⟩
        simp only [List.map_cons, List.mem_cons]
        exact Or.inr p5
    · rw [if_neg hc] at h
      dsimp only at h
      rcases ih _ h with hin | ⟨p1, p2, p3, p4, p5⟩
      · rcases List.mem_append.mp hin with hl | hr
        · exact Or.inl hl
        · rcases List.mem_singleton.mp hr with rfl
          exact Or.inr ⟨rfl, rfl, rfl, rfl, by simp⟩
      · refine Or.inr ⟨p1, p2, p3, p4, ?_⟩
        simp only [List.map_cons, List.mem_cons]
        exact Or.inr p5

/-- Claim C7 (amended): every candidate that survives the filters is
scored 100 - 10*distanceKm + 5*rating; the scored list is ordered by
descending score, but the comparator carries no tie-break - candidates of
equal score keep the order in which the spatial index returned them (for
fewer than twelve candidates Go's sort.Slice runs a stable insertion sort
with this comparator); and on a non-empty candidate list every offer the
fan-out adds belongs to the top three scored drivers, is pending, and
expires at now + 15 s, individual creation failures being skipped. -/
theorem matching_scoring_and_offers (db : DB) (ride : Ride) (now : Nat)
    (drivers : List DriverWithDistance) :
    (∀ s ∈ scoreDrivers db ride.id drivers, ∃ d ∈ drivers, ∃ m,
      lookupAssoc d.driverID db.meta = some m ∧
      s = ⟨d.driverID, 100 - d.distance * 10 + m.rating * 5,
        d.distance⟩) ∧
    (scoreDrivers db ride.id drivers).Sorted
      (fun a b => b.score ≤ a.score) ∧
    (drivers ≠ [] →
      ∀ o ∈ (findAndOfferDrivers db drivers ride now).1.offers,
        o ∈ db.offers ∨
        (o.rideId = ride.id ∧ o.status = OfferStatus.pending ∧
         o.offeredAt = now ∧ o.expiresAt = now + offerTimeout ∧
         o.driverId ∈
           ((scoreDrivers db ride.id drivers).take 3).map
             ScoredDriver.driverID)) := by
  refine ⟨?_, sorted_sortByScore _, ?_⟩
  · intro s hs
    unfold scoreDrivers at hs
    rw [mem_sortByScore] at hs
    rcases List.mem_filterMap.mp hs with ⟨d, hd, hsome⟩
    rcases scoreOne_eq_some db ride.id d s hsome with ⟨m, hm, _, rfl⟩
    exact ⟨d, hd, m, hm, rfl⟩
  · intro hne o ho
    unfold findAndOfferDrivers at ho
    rw [if_neg (by simpa [List.isEmpty_iff] using hne)] at ho
    unfold processCandidates at ho
    by_cases hs : (scoreDrivers db ride.id drivers).isEmpty
    · rw [if_pos hs] at ho
      exact Or.inl ho
    · rw [if_neg hs] at ho
      exact createOffersLoop_offers ride.id now _ db o ho

/-- Presence record shared by the C7 counterexample drivers: online,
rating 2. -/
def metaC7x : DriverMeta := ⟨.online, "sedan", 2⟩

/-- Store for the C7 counterexample: drivers z and a both online with the
same rating. -/
def dbC7x : DB :=
  { emptyDB with meta := [("z", metaC7x), ("a", metaC7x)] }

/-- Claim C7 counterexample: two candidates with equal score (equal
distance, equal rating) arrive from the spatial index in the order
[z, a]; the claimed tie-break by id would put a first, but the code keeps
the input order, because the sort comparator compares scores only. -/
theorem scoreDrivers_no_id_tiebreak :
    scoreDrivers dbC7x "r9" [⟨"z", 1⟩, ⟨"a", 1⟩] =
      [⟨"z", 100 - 1 * 10 + 2 * 5, 1⟩, ⟨"a", 100 - 1 * 10 + 2 * 5, 1⟩] ∧
    ("a" : String) < "z" := by
  constructor
  · have hcmp : ¬((100 - 1 * 10 + 2 * 5 : ℚ) >
        (100 - 1 * 10 + 2 * 5 : ℚ)) := by norm_num
    unfold scoreDrivers
    have hf : List.filterMap (scoreOne dbC7x "r9")
        [⟨"z", 1⟩, ⟨"a", 1⟩] =
        [⟨"z", 100 - 1 * 10 + 2 * 5, 1⟩,
         ⟨"a", 100 - 1 * 10 + 2 * 5, 1⟩] := by
      simp [List.filterMap_cons, scoreOne, lookupOfferByRideAndDriver,
        lookupAssoc, dbC7x, metaC7x, emptyDB]
    rw [hf]
    unfold sortByScore
    simp only [List.foldl_cons, List.foldl_nil]
    rw [show insertByScore ⟨"z", 100 - 1 * 10 + 2 * 5, 1⟩ [] =
      [⟨"z", 100 - 1 * 10 + 2 * 5, 1⟩] from rfl]
    unfold insertByScore
    dsimp only
    rw [if_neg hcmp]
    rfl
  · rw [String.lt_iff_toList_lt]
    decide

/-- Presence record for the C7 witness driver. -/
def metaC7 : DriverMeta := ⟨.online, "sedan", 5⟩

/-- Store for the C7 witness: a single online driver d1. -/
def dbC7 : DB := { emptyDB with meta := [("d1", metaC7)] }

/-- Ride fixture for the C7 witness. -/
def rideC7 : Ride := { baseRide with id := "r7", status := .matching }

/-- Claim C7 witness: the matching theorem evaluated on the C7 fixture:
the single surviving candidate is scored 100 - 10*1 + 5*5 and the offer
created for it is pending with expiry now + 15. -/
theorem matching_scoring_and_offers_witness :
    (⟨"d1", 100 - 1 * 10 + 5 * 5, 1⟩ : ScoredDriver) ∈
      scoreDrivers dbC7 rideC7.id [⟨"d1", 1⟩] ∧
    (∃ d ∈ ([⟨"d1", 1⟩] : List DriverWithDistance), ∃ m,
      lookupAssoc d.driverID dbC7.meta = some m ∧
      (⟨"d1", 100 - 1 * 10 + 5 * 5, 1⟩ : ScoredDriver) =
        ⟨d.driverID, 100 - d.distance * 10 + m.rating * 5, d.distance⟩) ∧
    (scoreDrivers dbC7 rideC7.id [⟨"d1", 1⟩]).Sorted
      (fun a b => b.score ≤ a.score) := by
  have h := matching_scoring_and_offers dbC7 rideC7 0 [⟨"d1", 1⟩]
  have hmem : (⟨"d1", 100 - 1 * 10 + 5 * 5, 1⟩ : ScoredDriver) ∈
      scoreDrivers dbC7 rideC7.id [⟨"d1", 1⟩] := by
    apply List.mem_singleton.mpr
    rfl
  exact ⟨hmem, h.1 _ hmem, h.2.1⟩

end RideHailing
